import Mathlib

/-!
# Verification of the sigma-dropdown-auto-selector engine

Shallow embedding of the dropdown auto-selection script generated by this
repository.  The repository contains two variants of the generated script:

* `src/unnamed/part_001` (identical to the script shown in `src/README.md`):
  retry loop with fall-back to a `MutationObserver` phase bounded by a
  wall-clock timeout;
* `src/src/App.tsx` (`createScript`): retry loop only — on exhaustion it
  logs `Max retry attempts reached` and stops, with no observer phase.

The embedding models the document as an environment `env : Nat → Resolved`
giving, for the k-th resolver invocation, the outcome of the three-strategy
element resolution (not found, a native `<select>` element, or a custom
widget).  Elements are re-resolved on every attempt in the source, so the
per-invocation indexing is faithful.  Numbers are `Nat`/`Int`; DOM strings
are Lean `String`s.
-/

/-- JavaScript `String.prototype.trim`: remove leading and trailing
whitespace.  Modelled structurally over the character list so that it is
kernel-computable. -/
def jsTrim (s : String) : String :=
  ⟨((s.data.dropWhile Char.isWhitespace).reverse.dropWhile Char.isWhitespace).reverse⟩

/-- A member of a native select element's `options` collection: its
underlying `value` and its `textContent`. -/
structure OptionElem where
  value : String
  textContent : String
deriving DecidableEq

/-- A native `<select>` element: its options collection and its current
`selectedIndex` (an `Int`, `-1` when nothing is selected). -/
structure SelectElem where
  options : List OptionElem
  selectedIndex : Int
deriving DecidableEq

/-- A DOM event as synthesised by `new Event(name, { bubbles: true })`. -/
structure DOMEvent where
  name : String
  bubbles : Bool
deriving DecidableEq

/-- The outcome of one `handleSelectDropdown` call: the (possibly updated)
element, the events dispatched on it, the log lines emitted, and the
boolean return value of the function. -/
structure SelectAttempt where
  elem : SelectElem
  events : List DOMEvent
  logs : List String
  ok : Bool
deriving DecidableEq

/-- The start index computed by `handleSelectDropdown` from the option at
index 0 (`src/unnamed/part_001` line 173):
`(select.options[0].value === '' || select.options[0].textContent.trim() === '') ? 1 : 0`. -/
def startIndexOf (o0 : OptionElem) : Nat :=
  if o0.value = "" ∨ jsTrim o0.textContent = "" then 1 else 0

/-- `handleSelectDropdown` from `src/unnamed/part_001` lines 171-184 (the
same logic appears inline in `src/src/App.tsx` lines 155-165):
if the options collection is non-empty, compute the start index; if an
option exists at the start index, assign `selectedIndex`, dispatch bubbling
`change` and `input` events, log the selected option's text and return
`true`; on every other path return `false` with no mutation, no events and
no log. -/
def handleSelectDropdown (s : SelectElem) : SelectAttempt :=
  match s.options with
  | [] => ⟨s, [], [], false⟩
  | o0 :: _ =>
    let startIndex := startIndexOf o0
    if h : startIndex < s.options.length then
      let chosen := s.options.get ⟨startIndex, h⟩
      ⟨{ s with selectedIndex := (startIndex : Int) },
       [⟨"change", true⟩, ⟨"input", true⟩],
       ["Selected option: \"" ++ chosen.textContent ++ "\""],
       true⟩
    else ⟨s, [], [], false⟩

/-- An option-shaped element found by the deferred query of
`handleCustomDropdown`: its rendered bounding-box width and height and its
`textContent`. -/
structure DocOption where
  width : Nat
  height : Nat
  textContent : String
deriving DecidableEq

/-- Result of the deferred (settle-delay) callback of
`handleCustomDropdown`: the log lines it emits and its boolean return
value.  In the source the callback runs inside `setTimeout`, so its return
value is discarded by the scheduler; only the logs are observable. -/
structure DeferredResult where
  logs : List String
  ok : Bool
deriving DecidableEq

/-- The deferred callback of `handleCustomDropdown`
(`src/unnamed/part_001` lines 189-208): query option-shaped elements,
filter to those with non-zero width and height, click the first visible
one and log its trimmed text; otherwise log the no-visible-options line. -/
def handleCustomDropdownDeferred (opts : List DocOption) : DeferredResult :=
  if 0 < opts.length then
    let visibleOptions := opts.filter fun o => decide (0 < o.width) && decide (0 < o.height)
    match visibleOptions with
    | firstOption :: _ =>
        ⟨["Selected option: \"" ++ jsTrim firstOption.textContent ++ "\""], true⟩
    | [] => ⟨["No visible options found after opening dropdown"], false⟩
  else ⟨["No visible options found after opening dropdown"], false⟩

/-- A custom (non-`SELECT`) widget.  `deferredOptions` is the list of
option-shaped elements the deferred query will find 200 ms after the
widget is clicked; the synchronous path of `handleCustomDropdown` never
inspects it (it clicks, schedules the deferred callback, and returns
`true` immediately). -/
structure CustomElem where
  deferredOptions : List DocOption
deriving DecidableEq

/-! ## Run-level model

`env : Nat → Resolved` gives the outcome of the three-strategy resolution
at the k-th resolver invocation (the script's global `attempts` counter
after its increment).  `PhaseResult` carries the value of that counter,
the accumulated log lines, and the boolean success flag. -/

/-- Outcome of one element resolution (`selectFirstOption` strategies 1-3):
nothing found, a native `SELECT` element, or any other element (custom
widget path). -/
inductive Resolved where
  | notFound : Resolved
  | nativeSel : SelectElem → Resolved
  | custom : CustomElem → Resolved
deriving DecidableEq

/-- State after a phase of the script: the global `attempts` counter, the
log lines emitted so far (in order), and the success flag. -/
structure PhaseResult where
  attempts : Nat
  logs : List String
  ok : Bool
deriving DecidableEq

/-- `selectFirstOption` from `src/unnamed/part_001` lines 135-169:
increment the attempts counter, log the attempt, resolve the element, and
dispatch on its kind.  A custom (non-`SELECT`) element is clicked and the
function returns `true` immediately (`handleCustomDropdown` line 210); its
deferred callback is modelled separately by `handleCustomDropdownDeferred`
since its return value is discarded by `setTimeout`. -/
def selectFirstOption (env : Nat → Resolved) (attempts : Nat) : PhaseResult :=
  let a := attempts + 1
  let attemptLog := "Attempt " ++ toString a ++ " to find and select dropdown option"
  match env a with
  | Resolved.notFound => ⟨a, [attemptLog, "Dropdown not found"], false⟩
  | Resolved.nativeSel s =>
      let r := handleSelectDropdown s
      ⟨a, attemptLog :: "Found dropdown element:" :: r.logs, r.ok⟩
  | Resolved.custom _ => ⟨a, [attemptLog, "Found dropdown element:"], true⟩

/-- The counter advances by exactly one per `selectFirstOption` call. -/
theorem selectFirstOption_attempts (env : Nat → Resolved) (a : Nat) :
    (selectFirstOption env a).attempts = a + 1 := by
  cases h : env (a + 1) <;> simp [selectFirstOption, h]

/-- `trySelectWithRetry` from `src/unnamed/part_001` lines 213-226:
run `selectFirstOption`; on success log completion and stop; otherwise, if
the (incremented) attempts counter is still below `maxRetries`, log the
retry line and run again after the delay; otherwise log exhaustion and
hand off to `setupDOMObserver` (the hand-off itself is in `runPart001`). -/
def trySelectWithRetry (env : Nat → Resolved) (maxRetries retryDelay : Nat)
    (attempts : Nat) : PhaseResult :=
  let r := selectFirstOption env attempts
  if r.ok then
    ⟨r.attempts, r.logs ++ ["Selection completed successfully"], true⟩
  else if h : attempts + 1 < maxRetries then
    let r2 := trySelectWithRetry env maxRetries retryDelay (attempts + 1)
    ⟨r2.attempts,
     r.logs ++ ("Retrying in " ++ toString retryDelay ++ "ms... (attempt "
       ++ toString (attempts + 2) ++ "/" ++ toString maxRetries ++ ")") :: r2.logs,
     r2.ok⟩
  else
    ⟨r.attempts, r.logs ++ ["Max retry attempts reached. Setting up DOM observer..."], false⟩
termination_by maxRetries - attempts
decreasing_by simp_wf; omega

/-- A delivered mutation record: its `type` string and the number of
added nodes. -/
structure Mutation where
  type : String
  addedNodes : Nat
deriving DecidableEq

/-- The `MutationObserver` callback of `setupDOMObserver`
(`src/unnamed/part_001` lines 229-240): iterate over the delivered batch;
for each `childList` mutation with added nodes invoke `selectFirstOption`;
the first success disconnects the observer, logs completion and returns;
a failed invocation continues with the next mutation of the batch. -/
def observerCallback (env : Nat → Resolved) (attempts : Nat) :
    List Mutation → PhaseResult
  | [] => ⟨attempts, [], false⟩
  | m :: rest =>
    if m.type = "childList" ∧ 0 < m.addedNodes then
      let r := selectFirstOption env attempts
      if r.ok then ⟨r.attempts, r.logs ++ ["Selection completed via DOM observer"], true⟩
      else
        let r2 := observerCallback env r.attempts rest
        ⟨r2.attempts, r.logs ++ r2.logs, r2.ok⟩
    else observerCallback env attempts rest

/-- The observer phase over the batches delivered before the timeout
fires: the callback runs once per batch; the first success disconnects the
watch, so later batches are not processed. -/
def setupDOMObserver (env : Nat → Resolved) (attempts : Nat) :
    List (List Mutation) → PhaseResult
  | [] => ⟨attempts, [], false⟩
  | b :: bs =>
    let r := observerCallback env attempts b
    if r.ok then r
    else
      let r2 := setupDOMObserver env r.attempts bs
      ⟨r2.attempts, r.logs ++ r2.logs, r2.ok⟩

/-- The observer phase including its timeout timer
(`src/unnamed/part_001` lines 247-250): the `setTimeout` scheduled at
observer setup is never cleared anywhere in the script, so after the
batches (those delivered before `observerTimeout` elapses) it always fires,
disconnecting the (possibly already disconnected) observer and logging the
timeout line — even when the run already succeeded. -/
def observerPhase (env : Nat → Resolved) (attempts : Nat)
    (batches : List (List Mutation)) : PhaseResult :=
  let r := setupDOMObserver env attempts batches
  ⟨r.attempts, r.logs ++ ["DOM observer timeout reached"], r.ok⟩

/-- `RunState` as named by the specification. -/
inductive RunState where
  | Searching | RetryWaiting | Observing | Succeeded | TimedOut
deriving DecidableEq

/-- Result of a full run of the `src/unnamed/part_001` script: final
attempts counter, full log trace, final state, and whether the observer
phase was entered. -/
structure RunResult where
  attempts : Nat
  logs : List String
  finalState : RunState
  observerEntered : Bool
deriving DecidableEq

/-- A full run of the `src/unnamed/part_001` script (lines 253-254 start
`trySelectWithRetry` with `attempts = 0`): the retry phase, then — exactly
when it did not succeed — the observer phase, whose success flag decides
between `Succeeded` and `TimedOut`. -/
def runPart001 (env : Nat → Resolved) (maxRetries retryDelay : Nat)
    (batches : List (List Mutation)) : RunResult :=
  let r := trySelectWithRetry env maxRetries retryDelay 0
  if r.ok then
    ⟨r.attempts, "Starting auto-selection process..." :: r.logs, RunState.Succeeded, false⟩
  else
    let r2 := observerPhase env r.attempts batches
    ⟨r2.attempts, "Starting auto-selection process..." :: (r.logs ++ r2.logs),
     if r2.ok then RunState.Succeeded else RunState.TimedOut, true⟩

/-! ### The `src/src/App.tsx` variant (`createScript`)

Identical resolution and selection logic, but slightly different log text
(`Found dropdown element`, no colon) and — crucially — no observer phase:
on exhaustion it logs `Max retry attempts reached` and stops
(`src/src/App.tsx` lines 211-213). -/

/-- `selectFirstOption` of the `App.tsx` variant (lines 128-200). -/
def appSelectFirstOption (env : Nat → Resolved) (attempts : Nat) : PhaseResult :=
  let a := attempts + 1
  let attemptLog := "Attempt " ++ toString a ++ " to find and select dropdown option"
  match env a with
  | Resolved.notFound => ⟨a, [attemptLog, "Dropdown not found"], false⟩
  | Resolved.nativeSel s =>
      let r := handleSelectDropdown s
      ⟨a, attemptLog :: "Found dropdown element" :: r.logs, r.ok⟩
  | Resolved.custom _ => ⟨a, [attemptLog, "Found dropdown element"], true⟩

/-- `trySelectWithRetry` of the `App.tsx` variant (lines 202-214): same
retry loop, but on exhaustion it only logs — there is no
`setupDOMObserver` call in this variant. -/
def appTrySelectWithRetry (env : Nat → Resolved) (maxRetries retryDelay : Nat)
    (attempts : Nat) : PhaseResult :=
  let r := appSelectFirstOption env attempts
  if r.ok then
    ⟨r.attempts, r.logs ++ ["Selection completed successfully"], true⟩
  else if h : attempts + 1 < maxRetries then
    let r2 := appTrySelectWithRetry env maxRetries retryDelay (attempts + 1)
    ⟨r2.attempts,
     r.logs ++ ("Retrying in " ++ toString retryDelay ++ "ms... (attempt "
       ++ toString (attempts + 2) ++ "/" ++ toString maxRetries ++ ")") :: r2.logs,
     r2.ok⟩
  else
    ⟨r.attempts, r.logs ++ ["Max retry attempts reached"], false⟩
termination_by maxRetries - attempts
decreasing_by simp_wf; omega

/-- Terminal outcome of the `App.tsx` variant: success, or the bare
give-up after exhaustion. -/
inductive AppOutcome where
  | succeeded | maxRetriesReached
deriving DecidableEq

/-- Result of a full run of the `App.tsx` variant. -/
structure AppRunResult where
  attempts : Nat
  logs : List String
  outcome : AppOutcome
deriving DecidableEq

/-- A full run of the `App.tsx` variant (lines 216-217). -/
def runAppTsx (env : Nat → Resolved) (maxRetries retryDelay : Nat) : AppRunResult :=
  let r := appTrySelectWithRetry env maxRetries retryDelay 0
  ⟨r.attempts, "Starting auto-selection process..." :: r.logs,
   if r.ok then AppOutcome.succeeded else AppOutcome.maxRetriesReached⟩

/-- The environment in which resolution never finds the target. -/
def envAllFail : Nat → Resolved := fun _ => Resolved.notFound

/-! ## Configuration parsing (`generateControlScript` / `createScript`)

`src/unnamed/part_001` lines 112-115 (and the identical guard in
`src/src/App.tsx` lines 110-112):
```
if (!config?.targetControl) return '';
const retryAttempts = parseInt(config.retryAttempts || '3', 10);
```
Configuration fields arrive from the settings form as optional strings. -/

/-- The two configuration fields the script generator reads.  `none`
models an absent field of the `Partial<PluginConfig>` record. -/
structure PluginConfig where
  targetControl : Option String
  retryAttempts : Option String
deriving DecidableEq

/-- JS `a || dflt` on an optional string: the default is taken exactly
when the field is missing or the empty string (the only falsy strings). -/
def jsOrDefault (s : Option String) (dflt : String) : String :=
  match s with
  | none => dflt
  | some t => if t = "" then dflt else t

/-- Value of a decimal digit run, most significant first. -/
def digitsToNat (ds : List Char) : Nat :=
  ds.foldl (fun acc c => acc * 10 + (c.toNat - 48)) 0

/-- Longest leading digit run of a character list; `none` when there is
no leading digit. -/
def parseDigits (cs : List Char) : Option Nat :=
  let ds := cs.takeWhile Char.isDigit
  if ds.isEmpty then none else some (digitsToNat ds)

/-- JS `parseInt(s, 10)`: skip leading whitespace, accept an optional
sign, then read the longest leading digit run.  `none` models `NaN`
(no leading digit at all). -/
def jsParseInt10 (s : String) : Option Int :=
  match s.data.dropWhile Char.isWhitespace with
  | '-' :: restChars => (parseDigits restChars).map fun n => -(n : Int)
  | '+' :: restChars => (parseDigits restChars).map fun n => (n : Int)
  | cs => (parseDigits cs).map fun n => (n : Int)

/-- `parseInt(config.retryAttempts || '3', 10)`. -/
def retryAttemptsParsed (cfg : PluginConfig) : Option Int :=
  jsParseInt10 (jsOrDefault cfg.retryAttempts "3")

/-- How a JS number renders inside the generated script template
(`${retryAttempts}`): `NaN` renders as the text `NaN`. -/
def renderJSNumber : Option Int → String
  | none => "NaN"
  | some n => toString n

/-- The script-generation guard and `CONFIG` header of
`generateControlScript` (`src/unnamed/part_001` lines 112-127).  A missing
or empty `targetControl` yields the empty string; otherwise the script
text embeds the parsed retry count as `maxRetries`.  The algorithm body of
the emitted script is the code modelled above by `runPart001` and is
abbreviated here, since only the guard and the `CONFIG` rendering are at
issue. -/
def generateControlScript (cfg : PluginConfig) : String :=
  match cfg.targetControl with
  | none => ""
  | some t =>
    if t = "" then ""
    else
      "(function() \x7b\n  var CONFIG = \x7b\n    targetControlId: '" ++ t
        ++ "',\n    maxRetries: " ++ renderJSNumber (retryAttemptsParsed cfg)
        ++ ",\n    retryDelay: 500,\n    observerTimeout: 30000\n  \x7d;\n"
        ++ "  /* selection algorithm as modelled by runPart001 */\n\x7d)();"

/-! ## General lemmas about the retry loop and the observer phase -/

/-- The counter advances by exactly one per `appSelectFirstOption` call. -/
theorem appSelectFirstOption_attempts (env : Nat → Resolved) (a : Nat) :
    (appSelectFirstOption env a).attempts = a + 1 := by
  cases h : env (a + 1) <;> simp [appSelectFirstOption, h]

/-- Closed form of the retry loop when every attempt fails: the loop stops
after `max maxRetries (a + 1)` total invocations — the initial attempt
always runs, and the source guard `attempts < CONFIG.maxRetries` treats
`maxRetries` as a bound on the *total* attempt count. -/
theorem trySelectWithRetry_allFail (env : Nat → Resolved) (N d : Nat)
    (hf : ∀ x, (selectFirstOption env x).ok = false) :
    ∀ a, (trySelectWithRetry env N d a).attempts = max N (a + 1) ∧
      (trySelectWithRetry env N d a).ok = false := by
  have key : ∀ k a, N ≤ a + k →
      (trySelectWithRetry env N d a).attempts = max N (a + 1) ∧
      (trySelectWithRetry env N d a).ok = false := by
    intro k
    induction k with
    | zero =>
      intro a ha
      rw [trySelectWithRetry]
      simp [hf a, selectFirstOption_attempts, show ¬(a + 1 < N) by omega]
      omega
    | succ k ih =>
      intro a ha
      rw [trySelectWithRetry]
      by_cases hlt : a + 1 < N
      · have hih := ih (a + 1) (by omega)
        simp [hf a, hlt, hih.1, hih.2]
        omega
      · simp [hf a, hlt, selectFirstOption_attempts]
        omega
  intro a
  exact key N a (by omega)

/-- The retry loop performs at most `max maxRetries (a + 1)` total
invocations, whatever the environment does. -/
theorem trySelectWithRetry_attempts_le (env : Nat → Resolved) (N d : Nat) :
    ∀ a, (trySelectWithRetry env N d a).attempts ≤ max N (a + 1) := by
  have key : ∀ k a, N ≤ a + k →
      (trySelectWithRetry env N d a).attempts ≤ max N (a + 1) := by
    intro k
    induction k with
    | zero =>
      intro a ha
      rw [trySelectWithRetry]
      by_cases hok : (selectFirstOption env a).ok
      · simp [hok, selectFirstOption_attempts] <;> omega
      · simp [hok, selectFirstOption_attempts, show ¬(a + 1 < N) by omega] <;> omega
    | succ k ih =>
      intro a ha
      rw [trySelectWithRetry]
      by_cases hok : (selectFirstOption env a).ok
      · simp [hok, selectFirstOption_attempts] <;> omega
      · by_cases hlt : a + 1 < N
        · have hih := ih (a + 1) (by omega)
          simp [hok, hlt] <;> omega
        · simp [hok, hlt, selectFirstOption_attempts] <;> omega
  intro a
  exact key N a (by omega)

/-- When the retry loop fails, its log trace contains the exhaustion line
that announces the observer hand-off. -/
theorem trySelectWithRetry_exhaust_log (env : Nat → Resolved) (N d : Nat) :
    ∀ a, (trySelectWithRetry env N d a).ok = false →
      "Max retry attempts reached. Setting up DOM observer..."
        ∈ (trySelectWithRetry env N d a).logs := by
  have key : ∀ k a, N ≤ a + k → (trySelectWithRetry env N d a).ok = false →
      "Max retry attempts reached. Setting up DOM observer..."
        ∈ (trySelectWithRetry env N d a).logs := by
    intro k
    induction k with
    | zero =>
      intro a ha hko
      rw [trySelectWithRetry] at hko ⊢
      by_cases hok : (selectFirstOption env a).ok
      · simp [hok] at hko
      · simp [hok, show ¬(a + 1 < N) by omega]
    | succ k ih =>
      intro a ha hko
      rw [trySelectWithRetry] at hko ⊢
      by_cases hok : (selectFirstOption env a).ok
      · simp [hok] at hko
      · by_cases hlt : a + 1 < N
        · simp [hok, hlt] at hko ⊢
          exact Or.inr (Or.inr (ih (a + 1) (by omega) hko))
        · simp [hok, hlt]
  intro a
  exact key N a (by omega)

/-- Number of mutations in a batch that pass the source filter
`mutation.type === 'childList' && mutation.addedNodes.length > 0`. -/
def qualifyingCount (ms : List Mutation) : Nat :=
  ms.countP fun m => decide (m.type = "childList" ∧ 0 < m.addedNodes)

/-- Total number of mutations in a list of batches. -/
def totalMutationCount (bs : List (List Mutation)) : Nat :=
  (bs.map List.length).sum

/-- The observer callback performs at most one invocation per mutation of
the delivered batch. -/
theorem observerCallback_attempts_le (env : Nat → Resolved) :
    ∀ (ms : List Mutation) (a : Nat),
      (observerCallback env a ms).attempts ≤ a + ms.length := by
  intro ms
  induction ms with
  | nil => intro a; simp [observerCallback]
  | cons m rest ih =>
    intro a
    by_cases hq : m.type = "childList" ∧ 0 < m.addedNodes
    · by_cases hok : (selectFirstOption env a).ok
      · simp [observerCallback, hq, hok, selectFirstOption_attempts] <;> omega
      · have := ih (a + 1)
        simp [observerCallback, hq, hok, selectFirstOption_attempts] <;> omega
    · have := ih a
      simp [observerCallback, hq] <;> omega

/-- The observer phase performs at most one invocation per delivered
mutation across all batches. -/
theorem setupDOMObserver_attempts_le (env : Nat → Resolved) :
    ∀ (bs : List (List Mutation)) (a : Nat),
      (setupDOMObserver env a bs).attempts ≤ a + totalMutationCount bs := by
  intro bs
  induction bs with
  | nil => intro a; simp [setupDOMObserver, totalMutationCount]
  | cons b bs ih =>
    intro a
    by_cases hok : (observerCallback env a b).ok
    · have := observerCallback_attempts_le env b a
      simp [setupDOMObserver, hok, totalMutationCount]
      omega
    · have h1 := observerCallback_attempts_le env b a
      have h2 := ih (observerCallback env a b).attempts
      simp [setupDOMObserver, hok, totalMutationCount] at h2 ⊢
      omega

/-- Once a batch succeeds, the observer is disconnected: batches injected
afterwards are never processed and change nothing. -/
theorem setupDOMObserver_append_of_ok (env : Nat → Resolved) :
    ∀ (bs : List (List Mutation)) (a : Nat) (rest : List (List Mutation)),
      (setupDOMObserver env a bs).ok = true →
      setupDOMObserver env a (bs ++ rest) = setupDOMObserver env a bs := by
  intro bs
  induction bs with
  | nil => intro a rest h; simp [setupDOMObserver] at h
  | cons b bs ih =>
    intro a rest h
    by_cases hok : (observerCallback env a b).ok
    · simp [setupDOMObserver, hok]
    · have h2 : (setupDOMObserver env ((observerCallback env a b).attempts) bs).ok = true := by
        simpa [setupDOMObserver, hok] using h
      simp [setupDOMObserver, hok, ih _ rest h2]

/-! ## Claims -/

/-- C1 (counterexample): config `maxRetries = 2`, element never appears,
`observerTimeoutMs = 0` (no mutation batches).  The claim demands exactly
3 resolution attempts before the observer phase; the code performs 2: the
guard `attempts < CONFIG.maxRetries` counts the initial attempt against
`maxRetries`.  The run then ends `TimedOut` as the scenario expects. -/
theorem claim_C1_cex :
    (runPart001 envAllFail 2 500 []).attempts = 2 ∧
    (runPart001 envAllFail 2 500 []).attempts ≠ 3 ∧
    (runPart001 envAllFail 2 500 []).finalState = RunState.TimedOut := by
  have h : (runPart001 envAllFail 2 500 []).attempts = 2 := by
    simp [runPart001, trySelectWithRetry, selectFirstOption, envAllFail,
      observerPhase, setupDOMObserver]
  refine ⟨h, by omega, ?_⟩
  simp [runPart001, trySelectWithRetry, selectFirstOption, envAllFail,
    observerPhase, setupDOMObserver]

/-- C1 (amended): for every config with `maxRetries = N`, if every
resolution attempt fails, exactly `max N 1` resolver invocations occur
before the observer phase begins (`N` for `N ≥ 1`, since the guard
`attempts < maxRetries` counts the initial attempt against `maxRetries`;
one for `N = 0`, since the initial attempt always runs), and the run then
enters the observer phase. -/
theorem claim_C1_amended (env : Nat → Resolved) (N d : Nat)
    (batches : List (List Mutation))
    (hf : ∀ x, (selectFirstOption env x).ok = false) :
    (trySelectWithRetry env N d 0).attempts = max N 1 ∧
    (trySelectWithRetry env N d 0).ok = false ∧
    (runPart001 env N d batches).observerEntered = true := by
  have h := trySelectWithRetry_allFail env N d hf 0
  refine ⟨h.1, h.2, ?_⟩
  simp [runPart001, h.2]

/-- C1 (witness): the amended claim at `N = 2` with an all-failing
environment: 2 invocations, then the observer phase. -/
theorem claim_C1_witness :
    (trySelectWithRetry envAllFail 2 500 0).attempts = max 2 1 ∧
    (trySelectWithRetry envAllFail 2 500 0).ok = false ∧
    (runPart001 envAllFail 2 500 []).observerEntered = true :=
  claim_C1_amended envAllFail 2 500 []
    (fun x => by simp [selectFirstOption, envAllFail])

/-- C2 (counterexample): a first option with empty underlying value but
non-empty trimmed text.  The claim demands start index 0 for it (start
index 1 "exactly when" value and trimmed text are both empty); the code's
test is a disjunction (`||`, line 173 of `src/unnamed/part_001`), so it
yields 1. -/
theorem claim_C2_cex :
    startIndexOf ⟨"", "Alpha"⟩ = 1 ∧
    startIndexOf ⟨"", "Alpha"⟩ ≠ 0 ∧
    ¬ ((⟨"", "Alpha"⟩ : OptionElem).value = ""
        ∧ jsTrim (⟨"", "Alpha"⟩ : OptionElem).textContent = "") := by
  refine ⟨by decide, by decide, by decide⟩

/-- C2 (amended): in the native-select strategy, for a successful
selection on a non-empty option list the selected index is 1 exactly when
the option at index 0 has an empty underlying value OR empty trimmed
display text (a disjunction, not the claimed conjunction), and 0
otherwise. -/
theorem claim_C2_amended (s : SelectElem) (o0 : OptionElem) (rest : List OptionElem)
    (hopts : s.options = o0 :: rest)
    (hok : (handleSelectDropdown s).ok = true) :
    ((handleSelectDropdown s).elem.selectedIndex = 1
      ↔ (o0.value = "" ∨ jsTrim o0.textContent = "")) ∧
    ((handleSelectDropdown s).elem.selectedIndex = 0
      ↔ ¬ (o0.value = "" ∨ jsTrim o0.textContent = "")) := by
  obtain ⟨opts, idx⟩ := s
  have hopts' : opts = o0 :: rest := hopts
  subst hopts'
  by_cases hc : o0.value = "" ∨ jsTrim o0.textContent = ""
  · by_cases hlen : 0 < rest.length
    · simp [handleSelectDropdown, startIndexOf, hc, hlen]
    · exfalso
      simp [handleSelectDropdown, startIndexOf, hc, hlen] at hok
  · simp [handleSelectDropdown, startIndexOf, hc]

/-- C2 (witness): first option has empty value and non-empty text; the
selection succeeds and targets index 1 (not 0). -/
theorem claim_C2_witness :
    ((handleSelectDropdown ⟨[⟨"", "Alpha"⟩, ⟨"a", "Beta"⟩], -1⟩).elem.selectedIndex = 1
      ↔ ((⟨"", "Alpha"⟩ : OptionElem).value = ""
          ∨ jsTrim (⟨"", "Alpha"⟩ : OptionElem).textContent = "")) ∧
    ((handleSelectDropdown ⟨[⟨"", "Alpha"⟩, ⟨"a", "Beta"⟩], -1⟩).elem.selectedIndex = 0
      ↔ ¬ ((⟨"", "Alpha"⟩ : OptionElem).value = ""
          ∨ jsTrim (⟨"", "Alpha"⟩ : OptionElem).textContent = "")) :=
  claim_C2_amended ⟨[⟨"", "Alpha"⟩, ⟨"a", "Beta"⟩], -1⟩ ⟨"", "Alpha"⟩ [⟨"a", "Beta"⟩]
    rfl (by decide)

/-- C3 (counterexample): the `src/src/App.tsx` variant (`createScript`)
with `maxRetries = 2` and an all-failing environment: when the attempt
counter reaches `maxRetries` without success, that variant logs
`Max retry attempts reached` and terminates directly — it sets up no
mutation watch and no observer timeout, so the claim's "every generated
script variant" fails. -/
theorem claim_C3_cex :
    (runAppTsx envAllFail 2 500).outcome = AppOutcome.maxRetriesReached ∧
    (runAppTsx envAllFail 2 500).attempts = 2 ∧
    "Max retry attempts reached" ∈ (runAppTsx envAllFail 2 500).logs ∧
    "Max retry attempts reached. Setting up DOM observer..."
      ∉ (runAppTsx envAllFail 2 500).logs := by
  refine ⟨?_, ?_, ?_, ?_⟩
  · simp [runAppTsx, appTrySelectWithRetry, appSelectFirstOption, envAllFail]
  · simp [runAppTsx, appTrySelectWithRetry, appSelectFirstOption, envAllFail]
  · simp [runAppTsx, appTrySelectWithRetry, appSelectFirstOption, envAllFail]
  · simp [runAppTsx, appTrySelectWithRetry, appSelectFirstOption, envAllFail]
    refine ⟨by decide, by decide, by decide⟩

/-- C3 (amended): in the `src/unnamed/part_001` / README variant, whenever
the retry loop exhausts without success the run transitions to the
observer phase (the hand-off log is emitted, the observer phase is
entered) and still terminates in `Succeeded` or `TimedOut`; the
`src/src/App.tsx` variant instead terminates directly on exhaustion. -/
theorem claim_C3_amended (env : Nat → Resolved) (N d : Nat)
    (batches : List (List Mutation))
    (h : (trySelectWithRetry env N d 0).ok = false) :
    (runPart001 env N d batches).observerEntered = true ∧
    "Max retry attempts reached. Setting up DOM observer..."
      ∈ (runPart001 env N d batches).logs ∧
    ((runPart001 env N d batches).finalState = RunState.Succeeded ∨
      (runPart001 env N d batches).finalState = RunState.TimedOut) := by
  refine ⟨by simp [runPart001, h], ?_, ?_⟩
  · have hm := trySelectWithRetry_exhaust_log env N d 0 h
    simp [runPart001, h]
    exact Or.inl hm
  · by_cases hko : (observerPhase env (trySelectWithRetry env N d 0).attempts batches).ok
    · exact Or.inl (by simp [runPart001, h, hko])
    · exact Or.inr (by simp [runPart001, h, hko])

/-- C3 (witness): the amended claim with `maxRetries = 2`, an all-failing
environment and no delivered batches. -/
theorem claim_C3_witness :
    (runPart001 envAllFail 2 500 []).observerEntered = true ∧
    "Max retry attempts reached. Setting up DOM observer..."
      ∈ (runPart001 envAllFail 2 500 []).logs ∧
    ((runPart001 envAllFail 2 500 []).finalState = RunState.Succeeded ∨
      (runPart001 envAllFail 2 500 []).finalState = RunState.TimedOut) :=
  claim_C3_amended envAllFail 2 500 []
    (by simp [trySelectWithRetry, selectFirstOption, envAllFail])

/-- A native select resolving successfully: one option with non-empty
value and text. -/
def selAlpha : SelectElem := ⟨[⟨"x", "Alpha"⟩], -1⟩

/-- Environment where resolution fails at the first invocation and finds
`selAlpha` from the second invocation on (the element appears after the
observer phase starts). -/
def envObserverHit : Nat → Resolved :=
  fun k => if k = 1 then Resolved.notFound else Resolved.nativeSel selAlpha

/-- C4 (counterexample): `maxRetries = 0`, the element appears only during
the observer phase, one qualifying batch.  The run succeeds via the
observer, yet its log trace still contains `DOM observer timeout reached`:
the observer timeout `setTimeout` (`src/unnamed/part_001` lines 247-250)
is never cleared anywhere in the script, so it fires after a run that
already succeeded, violating the claim that both the watch and the timer
are cancelled at the terminal transition. -/
theorem claim_C4_cex :
    (runPart001 envObserverHit 0 500 [[⟨"childList", 1⟩]]).finalState
      = RunState.Succeeded ∧
    "DOM observer timeout reached"
      ∈ (runPart001 envObserverHit 0 500 [[⟨"childList", 1⟩]]).logs := by
  constructor
  · simp [runPart001, trySelectWithRetry, selectFirstOption, envObserverHit,
      observerPhase, setupDOMObserver, observerCallback, handleSelectDropdown,
      selAlpha, startIndexOf, jsTrim]
  · simp [runPart001, trySelectWithRetry, selectFirstOption, envObserverHit,
      observerPhase, setupDOMObserver, observerCallback, handleSelectDropdown,
      selAlpha, startIndexOf, jsTrim]

/-- C4 (amended): when a run succeeds, the mutation watch is disconnected
at the terminal transition — mutations injected afterwards cause no
further resolver invocations and leave the run unchanged; the observer
timeout timer, however, is not cancelled, so when the observer phase was
entered the `DOM observer timeout reached` line is still emitted even
though the run already succeeded. -/
theorem claim_C4_amended (env : Nat → Resolved) (N d : Nat)
    (bs rest : List (List Mutation))
    (h : (runPart001 env N d bs).finalState = RunState.Succeeded) :
    runPart001 env N d (bs ++ rest) = runPart001 env N d bs ∧
    ((runPart001 env N d bs).observerEntered = true →
      "DOM observer timeout reached" ∈ (runPart001 env N d bs).logs) := by
  by_cases hr : (trySelectWithRetry env N d 0).ok
  · constructor
    · simp [runPart001, hr]
    · intro hobs
      exfalso
      simp [runPart001, hr] at hobs
  · have hok2 : (setupDOMObserver env (trySelectWithRetry env N d 0).attempts bs).ok = true := by
      by_contra hko
      rw [Bool.not_eq_true] at hko
      simp [runPart001, hr, observerPhase, hko] at h
    constructor
    · have happ := setupDOMObserver_append_of_ok env bs
        (trySelectWithRetry env N d 0).attempts rest hok2
      simp [runPart001, hr, observerPhase, happ]
    · intro _
      simp [runPart001, hr, observerPhase]

/-- C4 (witness): the amended claim at the counterexample's input, with an
extra qualifying batch injected after the success. -/
theorem claim_C4_witness :
    runPart001 envObserverHit 0 500 ([[⟨"childList", 1⟩]] ++ [[⟨"childList", 3⟩]])
      = runPart001 envObserverHit 0 500 [[⟨"childList", 1⟩]] ∧
    ((runPart001 envObserverHit 0 500 [[⟨"childList", 1⟩]]).observerEntered = true →
      "DOM observer timeout reached"
        ∈ (runPart001 envObserverHit 0 500 [[⟨"childList", 1⟩]]).logs) :=
  claim_C4_amended envObserverHit 0 500 [[⟨"childList", 1⟩]] [[⟨"childList", 3⟩]]
    (by simp [runPart001, trySelectWithRetry, selectFirstOption, envObserverHit,
      observerPhase, setupDOMObserver, observerCallback, handleSelectDropdown,
      selAlpha, startIndexOf, jsTrim])

/-- C5: whenever resolution yields a non-`SELECT` element, the selection
call returns `true` immediately (the provisional `OpenedPendingOptions`),
the retry loop treats the attempt as completed — it stops after this one
invocation regardless of `maxRetries` and of what the deferred check will
find — and the deferred check's actual outcome is delivered solely as a
log line (success with the clicked option's trimmed text, or the
no-visible-options line), never as a synchronous return value. -/
theorem claim_C5 (env : Nat → Resolved) (N d a : Nat) (c : CustomElem)
    (h : env (a + 1) = Resolved.custom c) :
    (selectFirstOption env a).ok = true ∧
    (trySelectWithRetry env N d a).attempts = a + 1 ∧
    (trySelectWithRetry env N d a).ok = true ∧
    ((handleCustomDropdownDeferred c.deferredOptions).ok = true →
      ∃ o, o ∈ c.deferredOptions ∧
        (handleCustomDropdownDeferred c.deferredOptions).logs
          = ["Selected option: \"" ++ jsTrim o.textContent ++ "\""]) ∧
    ((handleCustomDropdownDeferred c.deferredOptions).ok = false →
      (handleCustomDropdownDeferred c.deferredOptions).logs
        = ["No visible options found after opening dropdown"]) := by
  refine ⟨by simp [selectFirstOption, h], ?_, ?_, ?_, ?_⟩
  · rw [trySelectWithRetry]
    simp [selectFirstOption, h]
  · rw [trySelectWithRetry]
    simp [selectFirstOption, h]
  · intro hok
    by_cases hlen : 0 < c.deferredOptions.length
    · rcases hv : c.deferredOptions.filter
          (fun o => decide (0 < o.width) && decide (0 < o.height)) with _ | ⟨f, fs⟩
      · exfalso
        simp [handleCustomDropdownDeferred, hlen, hv] at hok
      · refine ⟨f, ?_, ?_⟩
        · exact List.mem_of_mem_filter (hv ▸ List.mem_cons_self f fs)
        · simp [handleCustomDropdownDeferred, hlen, hv]
    · exfalso
      simp [handleCustomDropdownDeferred, hlen] at hok
  · intro hko
    by_cases hlen : 0 < c.deferredOptions.length
    · rcases hv : c.deferredOptions.filter
          (fun o => decide (0 < o.width) && decide (0 < o.height)) with _ | ⟨f, fs⟩
      · simp [handleCustomDropdownDeferred, hlen, hv]
      · exfalso
        simp [handleCustomDropdownDeferred, hlen, hv] at hko
    · simp [handleCustomDropdownDeferred, hlen]

/-- The custom widget of the C5 witness: the deferred query finds a
zero-area (hidden) element and a visible one. -/
def customC5 : CustomElem := ⟨[⟨0, 0, "hidden"⟩, ⟨2, 3, " Opt A "⟩]⟩

/-- The environment that always resolves the custom widget. -/
def envCustom : Nat → Resolved := fun _ => Resolved.custom customC5

/-- C5 (witness): a custom widget with one hidden and one visible deferred
option, `maxRetries = 3`: immediate provisional success, the loop stops
after one invocation, and the deferred outcome is a log line. -/
theorem claim_C5_witness :
    (selectFirstOption envCustom 0).ok = true ∧
    (trySelectWithRetry envCustom 3 500 0).attempts = 0 + 1 ∧
    (trySelectWithRetry envCustom 3 500 0).ok = true ∧
    ((handleCustomDropdownDeferred customC5.deferredOptions).ok = true →
      ∃ o, o ∈ customC5.deferredOptions ∧
        (handleCustomDropdownDeferred customC5.deferredOptions).logs
          = ["Selected option: \"" ++ jsTrim o.textContent ++ "\""]) ∧
    ((handleCustomDropdownDeferred customC5.deferredOptions).ok = false →
      (handleCustomDropdownDeferred customC5.deferredOptions).logs
        = ["No visible options found after opening dropdown"]) :=
  claim_C5 envCustom 3 500 0 customC5 rfl

/-- C6 (counterexample): a batch with two qualifying child-list mutations
delivered while the target still cannot be resolved: the observer callback
(`src/unnamed/part_001` lines 229-240) invokes the Resolve→Select cycle
once per qualifying mutation of the batch — twice here — not exactly once
per batch as claimed. -/
theorem claim_C6_cex :
    (observerCallback envAllFail 0 [⟨"childList", 1⟩, ⟨"childList", 1⟩]).attempts = 2 ∧
    (observerCallback envAllFail 0 [⟨"childList", 1⟩, ⟨"childList", 1⟩]).attempts ≠ 1 := by
  have h : (observerCallback envAllFail 0 [⟨"childList", 1⟩, ⟨"childList", 1⟩]).attempts = 2 := by
    simp [observerCallback, selectFirstOption, envAllFail]
  exact ⟨h, by omega⟩

/-- C6 (amended): during the observer phase, a delivered batch triggers
one Resolve→Select invocation per qualifying mutation (child-list with
added nodes) until the first success; in particular, while every attempt
fails, a batch with `k` qualifying mutations triggers exactly `k`
invocations, not one. -/
theorem claim_C6_amended (env : Nat → Resolved)
    (hf : ∀ x, (selectFirstOption env x).ok = false) :
    ∀ (ms : List Mutation) (a : Nat),
      (observerCallback env a ms).attempts = a + qualifyingCount ms ∧
      (observerCallback env a ms).ok = false := by
  intro ms
  induction ms with
  | nil => intro a; simp [observerCallback, qualifyingCount]
  | cons m rest ih =>
    intro a
    by_cases hq : m.type = "childList" ∧ 0 < m.addedNodes
    · have hih := ih (a + 1)
      simp [observerCallback, qualifyingCount, List.countP_cons, hq, hf a,
        selectFirstOption_attempts, hih.1, hih.2] at * <;> omega
    · have hih := ih a
      simp [observerCallback, qualifyingCount, List.countP_cons, hq, hih.1, hih.2] at * <;> omega

/-- C6 (witness): the amended claim at the counterexample's batch: two
qualifying mutations, two invocations. -/
theorem claim_C6_witness :
    (observerCallback envAllFail 0 [⟨"childList", 1⟩, ⟨"childList", 1⟩]).attempts
      = 0 + qualifyingCount [⟨"childList", 1⟩, ⟨"childList", 1⟩] ∧
    (observerCallback envAllFail 0 [⟨"childList", 1⟩, ⟨"childList", 1⟩]).ok = false :=
  claim_C6_amended envAllFail (fun x => by simp [selectFirstOption, envAllFail])
    [⟨"childList", 1⟩, ⟨"childList", 1⟩] 0

/-- C7 (counterexample): a configuration with `retryAttempts = 'abc'`:
`'abc'` is truthy, so the `|| '3'` fallback does not apply, and
`parseInt('abc', 10)` is `NaN` (modelled as `none`) — not the claimed
default 3.  The generated script then reads `maxRetries: NaN`. -/
theorem claim_C7_cex :
    retryAttemptsParsed ⟨some "dropdown-1", some "abc"⟩ = none ∧
    retryAttemptsParsed ⟨some "dropdown-1", some "abc"⟩ ≠ some 3 ∧
    renderJSNumber (retryAttemptsParsed ⟨some "dropdown-1", some "abc"⟩) = "NaN" := by
  refine ⟨by decide, by decide, by decide⟩

/-- C7 (amended): the parsed retry count defaults to 3 exactly when the
`retryAttempts` field is missing or the empty string (the only falsy
strings); any other string goes to `parseInt` unchanged, so a non-numeric
non-empty string such as `'abc'` yields `NaN`, not 3.  A missing or empty
target identifier makes script generation yield the empty string, as
claimed. -/
theorem claim_C7_amended (t : Option String) (s : String) (hs : s ≠ "") :
    retryAttemptsParsed ⟨t, none⟩ = some 3 ∧
    retryAttemptsParsed ⟨t, some ""⟩ = some 3 ∧
    retryAttemptsParsed ⟨t, some s⟩ = jsParseInt10 s ∧
    generateControlScript ⟨none, some s⟩ = "" ∧
    generateControlScript ⟨some "", some s⟩ = "" := by
  have h3 : jsParseInt10 "3" = some 3 := by decide
  refine ⟨?_, ?_, ?_, rfl, ?_⟩
  · simp [retryAttemptsParsed, jsOrDefault, h3]
  · simp [retryAttemptsParsed, jsOrDefault, h3]
  · simp [retryAttemptsParsed, jsOrDefault, hs]
  · simp [generateControlScript]

/-- C7 (witness): the amended claim at `retryAttempts = 'abc'`, whose
parse is `NaN`. -/
theorem claim_C7_witness :
    retryAttemptsParsed ⟨none, none⟩ = some 3 ∧
    retryAttemptsParsed ⟨none, some ""⟩ = some 3 ∧
    retryAttemptsParsed ⟨none, some "abc"⟩ = jsParseInt10 "abc" ∧
    generateControlScript ⟨none, some "abc"⟩ = "" ∧
    generateControlScript ⟨some "", some "abc"⟩ = "" :=
  claim_C7_amended none "abc" (by decide)

/-- C8: invoking the native-select selection on an element on which it
already succeeded (its `selectedIndex` already equals the computed start
index) returns the identical outcome: same element state, same selected
label in the log, the same bubbling `change` and `input` events, and
success — no error path is taken. -/
theorem claim_C8 (s : SelectElem) (h : (handleSelectDropdown s).ok = true) :
    handleSelectDropdown ((handleSelectDropdown s).elem) = handleSelectDropdown s ∧
    (handleSelectDropdown ((handleSelectDropdown s).elem)).ok = true := by
  obtain ⟨opts, idx⟩ := s
  cases opts with
  | nil => simp [handleSelectDropdown] at h
  | cons o0 rest =>
    by_cases hlt : startIndexOf o0 < rest.length + 1
    · constructor
      · simp [handleSelectDropdown, hlt]
      · simp [handleSelectDropdown, hlt]
    · exfalso
      simp [handleSelectDropdown, hlt] at h

/-- C8 (witness): a select whose first option is a placeholder and whose
second option is `Alpha`, after a first successful selection. -/
theorem claim_C8_witness :
    handleSelectDropdown ((handleSelectDropdown ⟨[⟨"", ""⟩, ⟨"a", "Alpha"⟩], -1⟩).elem)
      = handleSelectDropdown ⟨[⟨"", ""⟩, ⟨"a", "Alpha"⟩], -1⟩ ∧
    (handleSelectDropdown
      ((handleSelectDropdown ⟨[⟨"", ""⟩, ⟨"a", "Alpha"⟩], -1⟩).elem)).ok = true :=
  claim_C8 ⟨[⟨"", ""⟩, ⟨"a", "Alpha"⟩], -1⟩ (by decide)

/-- Like `trySelectWithRetry_attempts_le`, for the `App.tsx` variant. -/
theorem appTrySelectWithRetry_attempts_le (env : Nat → Resolved) (N d : Nat) :
    ∀ a, (appTrySelectWithRetry env N d a).attempts ≤ max N (a + 1) := by
  have key : ∀ k a, N ≤ a + k →
      (appTrySelectWithRetry env N d a).attempts ≤ max N (a + 1) := by
    intro k
    induction k with
    | zero =>
      intro a ha
      rw [appTrySelectWithRetry]
      by_cases hok : (appSelectFirstOption env a).ok
      · simp [hok, appSelectFirstOption_attempts] <;> omega
      · simp [hok, appSelectFirstOption_attempts, show ¬(a + 1 < N) by omega] <;> omega
    | succ k ih =>
      intro a ha
      rw [appTrySelectWithRetry]
      by_cases hok : (appSelectFirstOption env a).ok
      · simp [hok, appSelectFirstOption_attempts] <;> omega
      · by_cases hlt : a + 1 < N
        · have hih := ih (a + 1) (by omega)
          simp [hok, hlt] <;> omega
        · simp [hok, hlt, appSelectFirstOption_attempts] <;> omega
  intro a
  exact key N a (by omega)

/-- C9: for every configuration and every environment (any resolution
behaviour, any finite sequence of mutation batches delivered before the
observer timeout), the run of the full script terminates in `Succeeded`
or `TimedOut`, and the total number of resolver invocations is bounded by
`max maxRetries 1` retry attempts plus one per delivered mutation — no
input produces an unbounded retry loop.  The `App.tsx` variant likewise
performs at most `max maxRetries 1` invocations before stopping. -/
theorem claim_C9 (env : Nat → Resolved) (N d : Nat)
    (batches : List (List Mutation)) :
    (((runPart001 env N d batches).finalState = RunState.Succeeded ∨
      (runPart001 env N d batches).finalState = RunState.TimedOut) ∧
    (runPart001 env N d batches).attempts ≤ max N 1 + totalMutationCount batches) ∧
    (runAppTsx env N d).attempts ≤ max N 1 := by
  refine ⟨?_, by simpa [runAppTsx] using appTrySelectWithRetry_attempts_le env N d 0⟩
  by_cases hr : (trySelectWithRetry env N d 0).ok
  · constructor
    · exact Or.inl (by simp [runPart001, hr])
    · have := trySelectWithRetry_attempts_le env N d 0
      simp [runPart001, hr]
      omega
  · constructor
    · by_cases hko : (observerPhase env (trySelectWithRetry env N d 0).attempts batches).ok
      · exact Or.inl (by simp [runPart001, hr, hko])
      · exact Or.inr (by simp [runPart001, hr, hko])
    · have h1 := trySelectWithRetry_attempts_le env N d 0
      have h2 := setupDOMObserver_attempts_le env batches
        (trySelectWithRetry env N d 0).attempts
      simp [runPart001, hr, observerPhase]
      omega

/-- C10: when a native select has no options at all, or no option at the
computed start index (e.g. a single placeholder option), the selection
attempt fails atomically: the element is unchanged (`selectedIndex` never
assigned), no `change` or `input` event is dispatched, no log line is
emitted, and the call returns `false`. -/
theorem claim_C10 (s : SelectElem)
    (h : s.options = [] ∨
      ∃ o0 rest, s.options = o0 :: rest ∧ s.options.length ≤ startIndexOf o0) :
    handleSelectDropdown s = ⟨s, [], [], false⟩ := by
  obtain ⟨opts, idx⟩ := s
  rcases h with h | ⟨o0, rest, hopts, hlen⟩
  · have h' : opts = [] := h
    subst h'
    rfl
  · have hopts' : opts = o0 :: rest := hopts
    subst hopts'
    have hlen' : rest.length + 1 ≤ startIndexOf o0 := by simpa using hlen
    simp [handleSelectDropdown, Nat.not_lt.mpr hlen']

/-- C10 (witness): a select holding a single placeholder option (empty
value, empty text): the start index is 1, past the end of the list, so
the attempt fails with no mutation, no events and no logs. -/
theorem claim_C10_witness :
    handleSelectDropdown ⟨[⟨"", ""⟩], 0⟩ = ⟨⟨[⟨"", ""⟩], 0⟩, [], [], false⟩ :=
  claim_C10 ⟨[⟨"", ""⟩], 0⟩ (Or.inr ⟨⟨"", ""⟩, [], rfl, by decide⟩)

example : startIndexOf ⟨"", ""⟩ = 1 := by decide
example : startIndexOf ⟨"", "Alpha"⟩ = 1 := by decide
example : startIndexOf ⟨"x", "  "⟩ = 1 := by decide
example : startIndexOf ⟨"x", "Alpha"⟩ = 0 := by decide
example : (handleSelectDropdown ⟨[⟨"", ""⟩, ⟨"a", "Alpha"⟩], -1⟩).ok = true := by decide
example : (handleSelectDropdown ⟨[⟨"", ""⟩], -1⟩).ok = false := by decide
example : (handleCustomDropdownDeferred [⟨0, 0, "hidden"⟩, ⟨2, 3, " Opt A "⟩]).logs
    = ["Selected option: \"Opt A\""] := by decide
